import Mathlib

/-!
Shallow embedding of the repository source file src/text_clustering.py
(class ClusterClassifier) in Lean 4, together with theorems settling the
behavioural claims about the pipeline.

Modelling conventions:
* Python machine-level collaborators (the sentence-transformer embedder,
  the UMAP/PCA/TSVD projectors, the sklearn/hdbscan clusterers, the faiss
  index, numpy's random choice and the hosted text-generation client) are
  opaque external functions, passed in as an explicit record of functions.
* Python None is Option.none; attributes that the constructor sets to None
  are Option-valued fields.
* Python exceptions are an explicit error type; a function that can raise
  returns in Except.
* Python strings are modelled as Lean String (a wrapper of List Char);
  character-level operations (split, strip, slicing) are defined on
  List Char so that all reasoning is by structural induction.
-/

set_option maxHeartbeats 1000000
set_option maxRecDepth 4000

/-- The kinds of Python exceptions raised on the modelled code paths. -/
inductive PyErr where
  | typeError
  | valueError
  | indexError
deriving DecidableEq, Repr

/-- Python truthiness update for integers: the value of the expression
x = new or old where new is an optional int (None and 0 are falsy). -/
def pyOrInt (new : Option Int) (old : Option Int) : Option Int :=
  match new with
  | none => old
  | some b => if b = 0 then old else some b

/-- Python truthiness update for a string attribute (None and "" are falsy). -/
def pyOrStr (new : Option String) (old : String) : String :=
  match new with
  | none => old
  | some s => if s = "" then old else s

/-- Python truthiness update for an optional list attribute
(None and the empty list are falsy). -/
def pyOrList (new : Option (List String)) (old : Option (List String)) :
    Option (List String) :=
  match new with
  | none => old
  | some [] => old
  | some l => some l

/-- Python truthiness update for a keyword-arguments dict, modelled as an
association list (None and the empty dict are falsy). -/
def pyOrArgs (new : Option (List (String × String))) (old : List (String × String)) :
    List (String × String) :=
  match new with
  | none => old
  | some [] => old
  | some l => l

/-- The Python comparison batch_size > 1 at fit line 130: the parameter
batch_size defaults to None, and comparing None with an int raises
TypeError in Python 3. -/
def pyGtOne : Option Int → Except PyErr Bool
  | none => .error .typeError
  | some b => .ok (decide (1 < b))

/-- DEFAULT_INSTRUCTION from the source (lines 27-31). -/
def DEFAULT_INSTRUCTION : String :=
  "Use three words total (comma separated)to describe general topics in above texts. Under no circumstances use enumeration. Example format: Tree, Cat, Fireman"

/-- DEFAULT_TEMPLATE from the source (line 33). -/
def DEFAULT_TEMPLATE : String := "<s>[INST]{examples}\n\n{instruction}[/INST]"

/-- batch_and_join as its body is written (lines 172-175): batches of n
texts joined with newlines. Note the declaration takes no self parameter. -/
def batch_and_join (texts : List String) (n : Nat) : List String :=
  (List.range' 0 ((texts.length + n - 1) / n) n).map
    (fun i => String.intercalate "\n" ((texts.drop i).take n))

/-- The call self.batch_and_join(self.texts) at fit line 131. Because
batch_and_join is declared without a self parameter but is invoked as a
bound method, Python binds the ClusterClassifier instance to the texts
parameter and the stored text list to the n parameter; evaluating
len(texts) on the instance (which defines no length hook) then raises
TypeError before any batch is formed. The call therefore always fails. -/
def batchAndJoinCall : Except PyErr (List String) := .error .typeError

/-- Python's enumerate(iterable) starting from index k. -/
def pyEnumFrom (k : Nat) : List α → List (Nat × α)
  | [] => []
  | x :: xs => (k, x) :: pyEnumFrom (k + 1) xs

/-- Python string slicing s[:n]: the first n characters. -/
def pySlice (s : String) (n : Nat) : String := String.mk (s.data.take n)

/-- Python str.strip(): remove leading and trailing whitespace. -/
def pyStrip (s : List Char) : List Char :=
  ((s.dropWhile Char.isWhitespace).reverse.dropWhile Char.isWhitespace).reverse

/-- Python str.split(sep) for a one-character separator: split at every
occurrence of the character, keeping empty fragments. -/
def pySplitChar (c : Char) : List Char → List (List Char)
  | [] => [[]]
  | x :: rest =>
    if x = c then [] :: pySplitChar c rest
    else
      match pySplitChar c rest with
      | [] => [[x]]
      | h :: t => (x :: h) :: t

/-- Python str.split(sep) for an arbitrary non-empty separator: split at
every occurrence of the separator, keeping empty fragments. (For an empty
separator Python raises; that case is never reached by the source and is
mapped to the trivial split.) -/
def pySplitSep (sep : List Char) (s : List Char) : List (List Char) :=
  match s with
  | [] => [[]]
  | x :: rest =>
    if sep ≠ [] ∧ sep.isPrefixOf (x :: rest) then
      [] :: pySplitSep sep ((x :: rest).drop sep.length)
    else
      match pySplitSep sep rest with
      | [] => [[x]]
      | h :: t => (x :: h) :: t
termination_by s.length
decreasing_by
  · simp only [List.length_drop, List.length_cons]
    have : sep.length ≠ 0 := by
      intro h0
      exact absurd (List.length_eq_zero.mp h0) (by exact_mod_cast (by assumption : sep ≠ [] ∧ _).1)
    omega
  · simp [List.length_cons]

/-- Python str.format restricted to the two field names the source uses:
substitute every occurrence of the placeholders in a single left-to-right
scan (matching Python's simultaneous substitution). Format-string features
the repository never exercises (positional fields, escaped braces, format
specs) are not modelled. -/
def pyFormatAux (ex ins : List Char) : List Char → List Char
  | [] => []
  | c :: rest =>
    if "{examples}".data.isPrefixOf (c :: rest) then
      ex ++ pyFormatAux ex ins ((c :: rest).drop 10)
    else if "{instruction}".data.isPrefixOf (c :: rest) then
      ins ++ pyFormatAux ex ins ((c :: rest).drop 13)
    else
      c :: pyFormatAux ex ins rest
termination_by s => s.length
decreasing_by
  · simp only [List.length_drop, List.length_cons]; omega
  · simp only [List.length_drop, List.length_cons]; omega
  · simp [List.length_cons]

/-- template.format(examples=..., instruction=...) as the source calls it
(line 286). -/
def pyFormat (template examples instruction : String) : String :=
  String.mk (pyFormatAux examples.data instruction.data template.data)

/-!  _postprocess_response (source lines 296-319). -/

/-- The "multiple_topics" branch (lines 297-302): take the first line of the
response, cut it at the first period and then at the first opening
parenthesis, strip it, drop empty comma-separated segments and re-join
with commas. -/
def multipleTopicsStrL (r : List Char) : List Char :=
  let summary :=
    (pySplitChar '(' ((pySplitChar '.' ((pySplitChar '\n' r).headD [])).headD [])).headD []
  List.intercalate [',']
    ((pySplitChar ',' (pyStrip summary)).filter (fun t => 0 < t.length))

/-- Interpolation of a possibly-None string into an f-string: Python prints
None as the text None. -/
def pyOptRepr : Option (List Char) → List Char
  | none => "None".data
  | some s => s

/-- The "single_topic" branch (lines 303-315): extract the topic after
"Topic:" (first line, cut at the first parenthesis and comma, stripped) and
the score after "Educational value rating:"; a missing marker raises
IndexError, which the source catches, leaving the value None. -/
def singleTopicStrL (r : List Char) : List Char :=
  let first_line := (pySplitChar '\n' r).headD []
  let topic : Option (List Char) :=
    match (pySplitSep "Topic:".data first_line).get? 1 with
    | none => none
    | some s =>
      some (pyStrip ((pySplitChar ',' ((pySplitChar '(' s).headD [])).headD []))
  let score : Option (List Char) :=
    match (pySplitSep "Educational value rating:".data first_line).get? 1 with
    | none => none
    | some s =>
      some (pyStrip ((pySplitChar '.' (pyStrip s)).headD []))
  pyOptRepr topic ++ ". Educational score: ".data ++ pyOptRepr score

/-- _postprocess_response (lines 296-319): dispatch on topic_mode; any mode
other than "multiple_topics" and "single_topic" raises ValueError. -/
def postprocessResponseL (topic_mode : String) (r : List Char) :
    Except PyErr (List Char) :=
  if topic_mode = "multiple_topics" then .ok (multipleTopicsStrL r)
  else if topic_mode = "single_topic" then .ok (singleTopicStrL r)
  else .error .valueError

/-- _postprocess_response on Lean strings. -/
def postprocessResponse (topic_mode : String) (r : String) : Except PyErr String :=
  (postprocessResponseL topic_mode r.data).map (fun l => String.mk l)

/-!  summarize (source lines 272-294). -/

/-- np.random.choice(population, count): numpy raises ValueError on an empty
population; otherwise it returns count elements of the population (sampling
with replacement). The random draw itself is the external function
choiceFn. -/
def npChoice (choiceFn : List Nat → Nat → List Nat) (pop : List Nat) (n : Nat) :
    Except PyErr (List Nat) :=
  if pop = [] then .error .valueError else .ok (choiceFn pop n)

/-- len(set(labels)): the number of distinct labels. -/
def uniqueLabelCount (labels : List Int) : Nat := labels.dedup.length

/-- The labels the summarization loop visits (line 277):
range(len(set(labels)) - 1), as Python ints. -/
def summarizedLabels (labels : List Int) : List Int :=
  (List.range (uniqueLabelCount labels - 1)).map Int.ofNat

/-- One example block of the prompt (line 281):
f"Example {i+1}:\n{texts[_id][:chunk]}". Indexing texts out of range would
raise IndexError in Python; the sampled ids come from label2docs, whose
entries are valid indices whenever the labels were stored for these texts,
so the default never surfaces on the modelled paths. -/
def exampleBlock (chunk : Nat) (texts : List String) (i : Nat) (id : Nat) : String :=
  "Example " ++ toString (i + 1) ++ ":\n" ++ pySlice (texts.getD id "") chunk

/-- The list of example blocks of one cluster prompt (lines 279-284). -/
def clusterExampleBlocks (chunk : Nat) (texts : List String) (ids : List Nat) :
    List String :=
  (pyEnumFrom 0 ids).map (fun p => exampleBlock chunk texts p.1 p.2)

/-- The request string sent to the generation service for one cluster
(lines 279-288), given the sampled ids. -/
def clusterRequest (template instruction : String) (chunk : Nat)
    (texts : List String) (ids : List Nat) : String :=
  pyFormat template
    (String.intercalate "\n\n" (clusterExampleBlocks chunk texts ids)) instruction

/-- The initial summaries dict (line 275): the noise label -1 is mapped to
the fixed string "None" before any service call. -/
def initialSummaries : List (Int × String) := [((-1 : Int), "None")]

/-- List traversal in the Except monad: the Python for-loop aborts at the
first raised exception. -/
def mapExcept (f : α → Except PyErr β) : List α → Except PyErr (List β)
  | [] => .ok []
  | a :: l => do
    let b ← f a
    let bs ← mapExcept f l
    pure (b :: bs)

/-- The body of the summarization loop for one cluster label (lines
278-292): sample ids, build the request, call the service, post-process. -/
def summarizeCluster (choiceFn : List Nat → Nat → List Nat)
    (clientFn : String → String) (topic_mode : String)
    (n_examples chunk : Nat) (template instruction : String)
    (texts : List String) (label2docs : Int → List Nat) (label : Int) :
    Except PyErr (Int × String) := do
  let ids ← npChoice choiceFn (label2docs label) n_examples
  let response := clientFn (clusterRequest template instruction chunk texts ids)
  let s ← postprocessResponse topic_mode response
  pure (label, s)

/-- summarize (lines 272-294): map -1 to "None", then loop over
range(len(set(labels)) - 1) querying the service once per visited label.
The resulting dict is modelled as an association list; the -1 entry is the
one inserted first. -/
def summarize (choiceFn : List Nat → Nat → List Nat)
    (clientFn : String → String) (topic_mode : String)
    (n_examples chunk : Nat) (template instruction : String)
    (texts : List String) (labels : List Int) (label2docs : Int → List Nat) :
    Except PyErr (List (Int × String)) := do
  let rest ← mapExcept
    (summarizeCluster choiceFn clientFn topic_mode n_examples chunk template
      instruction texts label2docs)
    (summarizedLabels labels)
  pure (initialSummaries ++ rest)

/-!  store_cluster_info (source lines 250-265) and infer (lines 161-170). -/

/-- id2cluster (lines 254-256): the dict index -> label built by enumerate,
as an association list. -/
def mkId2cluster (labels : List Int) : List (Nat × Int) := pyEnumFrom 0 labels

/-- label2docs (lines 257-259): for each label, the document indices carrying
it, appended in increasing order; the defaultdict yields the empty list for
a label never seen. -/
def mkLabel2docs (labels : List Int) (l : Int) : List Nat :=
  ((pyEnumFrom 0 labels).filter (fun p => p.2 == l)).map (fun p => p.1)

/-- cluster_centers (lines 261-265): for every label present, the mean of
the 2D projections of its documents. The numeric mean over the projection
coordinates is the external function center, which receives the document
indices of the label. Labels never seen are absent from the dict. -/
def mkClusterCenters (center : List Nat → C) (labels : List Int) :
    Int → Option C :=
  fun l => if l ∈ labels then some (center (mkLabel2docs labels l)) else none

/-- The keys of a Counter in first-occurrence order (collections.Counter
preserves insertion order). -/
def counterKeys : List Int → List Int
  | [] => []
  | x :: xs => x :: (counterKeys xs).filter (fun y => y ≠ x)

/-- Counter(labels).most_common(1)[0][0]: the first key of maximal count
(Counter.most_common sorts by count with a stable sort, so ties keep
first-occurrence order); on an empty list Python would raise IndexError,
modelled as none. -/
def mostCommon (l : List Int) : Option Int :=
  match counterKeys l with
  | [] => none
  | k :: ks =>
    some (ks.foldl (fun best x => if l.count best < l.count x then x else best) k)

/-- infer (lines 161-170): embed the inputs, query the index for the top_k
nearest stored documents of each, and return for each input the majority
label of those neighbours, together with the embeddings. The embedder and
the faiss search are the external functions embedFn and searchFn; the
neighbour lists returned by faiss hold valid indices into cluster_labels,
so the lookup default never surfaces. -/
def infer (embedFn : List String → List E) (searchFn : E → Nat → List Nat)
    (cluster_labels : List Int) (texts : List String) (top_k : Nat) :
    List Int × List E :=
  let embeddings := embedFn texts
  (embeddings.map (fun e =>
      (mostCommon ((searchFn e top_k).map
        (fun doc => cluster_labels.getD doc 0))).getD 0),
   embeddings)

/-!  The classifier state, its constructor and fit (lines 36-159). -/

/-- The mutable attributes of a ClusterClassifier relevant to the pipeline.
E, P, M, I, C are the opaque payload types produced by the external
collaborators: embeddings, projections, the fitted mapper, the faiss index
and a cluster-center value. Fields the pipeline only forwards to external
libraries (device names, the embedding model) are not tracked. -/
structure CCState (E P M I C : Type) where
  batch_size : Option Int
  texts : Option (List String)
  projection_algorithm : String
  projection_args : List (String × String)
  clustering_algorithm : String
  clustering_args : List (String × String)
  summary_create : Bool
  topic_mode : String
  summary_n_examples : Nat
  summary_chunk_size : Nat
  summary_template : String
  summary_instruction : String
  embeddings : Option E
  faiss_index : Option I
  cluster_labels : Option (List Int)
  projections : Option P
  mapper : Option M
  id2cluster : Option (List (Nat × Int))
  label2docs : Option (Int → List Nat)
  cluster_centers : Option (Int → Option C)
  cluster_summaries : Option (List (Int × String))

/-- The external collaborators, as opaque functions: the sentence
transformer (embedFn receives the texts argument passed to fit, which may
be None), faiss index construction and search, the projection algorithm
(returning projections and the fitted mapper), the clustering algorithm
(returning the label array), the projection-coordinate mean used for
cluster centers, numpy's random choice and the text-generation client. -/
structure ExtFns (E P M I C : Type) where
  embedFn : Option (List String) → E
  buildIndexFn : E → I
  projectFn : E → String → List (String × String) → P × M
  clusterFn : P → String → List (String × String) → List Int
  meanFn : P → List Nat → C
  choiceFn : List Nat → Nat → List Nat
  clientFn : String → String

/-- ClusterClassifier.__init__ (lines 37-106): validate the two algorithm
names (lines 67-75), then initialise the configuration and set every
artifact attribute to None. Loading the sentence-transformer model is
external and not modelled. -/
def ClusterClassifier.init (E P M I C : Type) (batch_size : Option Int)
    (projection_algorithm : String) (projection_args : List (String × String))
    (clustering_algorithm : String) (clustering_args : List (String × String))
    (summary_create : Bool) (topic_mode : String)
    (summary_n_examples summary_chunk_size : Nat)
    (summary_template summary_instruction : Option String) :
    Except PyErr (CCState E P M I C) :=
  if projection_algorithm ∉ ["pca", "tsvd", "umap"] then .error .valueError
  else if clustering_algorithm ∉ ["dbscan", "hdbscan", "optics", "kmeans"] then
    .error .valueError
  else
    .ok
      { batch_size := batch_size
        texts := none
        projection_algorithm := projection_algorithm
        projection_args := projection_args
        clustering_algorithm := clustering_algorithm
        clustering_args := clustering_args
        summary_create := summary_create
        topic_mode := topic_mode
        summary_n_examples := summary_n_examples
        summary_chunk_size := summary_chunk_size
        summary_template := summary_template.getD DEFAULT_TEMPLATE
        summary_instruction := summary_instruction.getD DEFAULT_INSTRUCTION
        embeddings := none
        faiss_index := none
        cluster_labels := none
        projections := none
        mapper := none
        id2cluster := none
        label2docs := none
        cluster_centers := none
        cluster_summaries := none }

/-- store_cluster_info (lines 250-265) as a state update: record the label
array and rebuild id2cluster, label2docs and cluster_centers. The center
function is the projection mean of the projections current at the call. -/
def store_cluster_info {E P M I C : Type} (center : List Nat → C) (st : CCState E P M I C)
    (cluster_labels : List Int) : CCState E P M I C :=
  { st with
    cluster_labels := some cluster_labels
    id2cluster := some (mkId2cluster cluster_labels)
    label2docs := some (fun l => mkLabel2docs cluster_labels l)
    cluster_centers := some (mkClusterCenters center cluster_labels) }

/-- The value fit returns on success (line 159). -/
def FitResult (E : Type) :=
  Option E × Option (List Int) × Option (List (Int × String))

/-- fit lines 133-159, after the preprocessing guard: reuse or compute the
embeddings (note line 135 embeds the texts argument of fit, not
self.texts), build the faiss index if absent, reuse or compute the
projections and mapper, cluster the projections and store the cluster
info, then summarize if summary_create is set. An exception inside
summarize leaves cluster_summaries untouched. -/
def fitRest {E P M I C : Type} (ext : ExtFns E P M I C) (st : CCState E P M I C)
    (texts : Option (List String)) :
    CCState E P M I C × Except PyErr (FitResult E) :=
  let emb := match st.embeddings with
    | some e => e
    | none => ext.embedFn texts
  let st3 := { st with embeddings := some emb }
  let idx := match st3.faiss_index with
    | some i => i
    | none => ext.buildIndexFn emb
  let st4 := { st3 with faiss_index := some idx }
  let projSt : P × CCState E P M I C :=
    match st4.projections with
    | some p => (p, st4)
    | none =>
      let pm := ext.projectFn emb st4.projection_algorithm st4.projection_args
      (pm.1, { st4 with projections := some pm.1, mapper := some pm.2 })
  let proj := projSt.1
  let st5 := projSt.2
  let labels := ext.clusterFn proj st5.clustering_algorithm st5.clustering_args
  let st6 := store_cluster_info (ext.meanFn proj) st5 labels
  if st6.summary_create then
    match summarize ext.choiceFn ext.clientFn st6.topic_mode
        st6.summary_n_examples st6.summary_chunk_size st6.summary_template
        st6.summary_instruction (st6.texts.getD []) labels
        (fun l => mkLabel2docs labels l) with
    | .error e => (st6, .error e)
    | .ok s =>
      let st7 := { st6 with cluster_summaries := some s }
      (st7, .ok (st7.embeddings, st7.cluster_labels, some s))
  else
    let st7 := { st6 with cluster_summaries := none }
    (st7, .ok (st7.embeddings, st7.cluster_labels, none))

/-- fit (lines 108-159). Lines 117-120: a batch_size that is not None and
differs from the stored one resets embeddings and projections. Lines
122-127: truthiness-based attribute updates. Line 130: the comparison
batch_size > 1 on the raw parameter (TypeError when it is None). Line 131:
the always-failing bound call to batch_and_join. The returned state holds
whatever attribute mutations happened before an exception. -/
def fit {E P M I C : Type} (ext : ExtFns E P M I C) (st : CCState E P M I C)
    (texts : Option (List String)) (batch_size : Option Int)
    (projection_algorithm : Option String)
    (projection_args : Option (List (String × String)))
    (clustering_algorithm : Option String)
    (clustering_args : Option (List (String × String))) :
    CCState E P M I C × Except PyErr (FitResult E) :=
  let st1 :=
    if batch_size.isSome ∧ batch_size ≠ st.batch_size then
      { st with embeddings := none, projections := none }
    else st
  let st2 :=
    { st1 with
      batch_size := pyOrInt batch_size st1.batch_size
      texts := pyOrList texts st1.texts
      projection_algorithm := pyOrStr projection_algorithm st1.projection_algorithm
      projection_args := pyOrArgs projection_args st1.projection_args
      clustering_algorithm := pyOrStr clustering_algorithm st1.clustering_algorithm
      clustering_args := pyOrArgs clustering_args st1.clustering_args }
  match pyGtOne batch_size with
  | .error e => (st2, .error e)
  | .ok gt =>
    if gt then
      match batchAndJoinCall with
      | .error e => (st2, .error e)
      | .ok ts => fitRest ext { st2 with texts := some ts } texts
    else fitRest ext st2 texts

/-!  save and load (source lines 321-383). -/

/-- The decimal digit characters used by str(int) and read by int(str). -/
def digitChar (d : Nat) : Char := Char.ofNat (48 + d)

/-- The numeric value of a decimal digit character. -/
def charVal (c : Char) : Nat := c.toNat - 48

/-- str(n) for a natural number: its decimal digits, most significant
first. -/
def natChars (n : Nat) : List Char :=
  if n = 0 then ['0'] else ((Nat.digits 10 n).map digitChar).reverse

/-- int(s) for a string of decimal digits. -/
def charsNat (cs : List Char) : Nat :=
  Nat.ofDigits 10 ((cs.map charVal).reverse)

/-- JSON object keys are strings: json.dump applies str to the int keys of
cluster_summaries. This is str(z) for a Python int. -/
def intStr (z : Int) : String :=
  if z < 0 then String.mk ('-' :: natChars z.natAbs)
  else String.mk (natChars z.toNat)

/-- int(key) at load line 369, on the canonical decimal strings produced by
str(int): an optional leading minus sign followed by digits. (Python's
int() also accepts surrounding whitespace and a plus sign; json round-trips
never produce those, so they are not modelled.) -/
def intParseL : List Char → Int
  | [] => 0
  | c :: rest =>
    if c = '-' then -(charsNat rest : Int) else (charsNat (c :: rest) : Int)

/-- int(key) on a Lean string. -/
def intParse (s : String) : Int := intParseL s.data

/-- The files save writes into the folder (lines 321-344): numpy arrays,
the faiss index and json files are written and read back verbatim by the
external libraries, so the folder stores the saved values themselves; the
json dict of cluster_summaries is keyed by the string form of the labels,
and is only written when cluster_summaries is not None. -/
structure SavedFolder (E P I : Type) where
  embeddings : Option E
  faiss_index : Option I
  projections : Option P
  cluster_labels : Option (List Int)
  texts : Option (List String)
  mistral_prompt : String
  cluster_summaries : Option (List (String × String))

/-- save (lines 321-344). -/
def ClusterClassifier.save {E P M I C : Type} (st : CCState E P M I C) :
    SavedFolder E P I :=
  { embeddings := st.embeddings
    faiss_index := st.faiss_index
    projections := st.projections
    cluster_labels := st.cluster_labels
    texts := st.texts
    mistral_prompt := DEFAULT_INSTRUCTION
    cluster_summaries :=
      st.cluster_summaries.map (fun l => l.map (fun p => (intStr p.1, p.2))) }

/-- load (lines 346-383): restore the stored arrays and texts, convert the
summary keys back to ints when the summaries file exists (otherwise the
attribute is left as it was), and recompute id2cluster, label2docs and
cluster_centers from the loaded labels and projections. With no stored
projections the center recomputation would raise inside np.mean for any
nonempty cluster; that failing path is not modelled and the centers are
simply absent. -/
def ClusterClassifier.load {E P M I C : Type} (meanFn : P → List Nat → C)
    (st : CCState E P M I C) (folder : SavedFolder E P I) : CCState E P M I C :=
  let labels := folder.cluster_labels.getD []
  { st with
    embeddings := folder.embeddings
    faiss_index := folder.faiss_index
    projections := folder.projections
    cluster_labels := folder.cluster_labels
    texts := folder.texts
    cluster_summaries :=
      match folder.cluster_summaries with
      | none => st.cluster_summaries
      | some l => some (l.map (fun p => (intParse p.1, p.2)))
    id2cluster := some (mkId2cluster labels)
    label2docs := some (fun l => mkLabel2docs labels l)
    cluster_centers :=
      match folder.projections with
      | none => none
      | some p => some (mkClusterCenters (meanFn p) labels) }

/-- The attribute updates of fit lines 122-127, applied to the state left by
the invalidation check. -/
def fitSt2 {E P M I C : Type} (st : CCState E P M I C)
    (texts : Option (List String)) (batch_size : Option Int)
    (pa : Option String) (pr : Option (List (String × String)))
    (ca : Option String) (cr : Option (List (String × String))) :
    CCState E P M I C :=
  { st with
    batch_size := pyOrInt batch_size st.batch_size
    texts := pyOrList texts st.texts
    projection_algorithm := pyOrStr pa st.projection_algorithm
    projection_args := pyOrArgs pr st.projection_args
    clustering_algorithm := pyOrStr ca st.clustering_algorithm
    clustering_args := pyOrArgs cr st.clustering_args }

/-- The specification-side description of the "multiple_topics"
post-processing, written from the claim: the first line of the response,
truncated at the first period and at the first opening parenthesis,
stripped, with empty comma-separated segments removed and re-joined by
commas. Compared against the source-side multipleTopicsStrL. -/
def multipleTopicsSpecL (r : List Char) : List Char :=
  let truncated :=
    ((r.takeWhile (fun x => x ≠ '\n')).takeWhile (fun x => x ≠ '.')).takeWhile
      (fun x => x ≠ '(')
  List.intercalate [',']
    ((pySplitChar ',' (pyStrip truncated)).filter (fun t => 0 < t.length))

/-!  Concrete instances used by witnesses and counterexamples. -/

/-- A concrete external-collaborator record over Nat payloads. -/
def extNat : ExtFns Nat Nat Nat Nat Nat :=
  { embedFn := fun _ => 7
    buildIndexFn := fun _ => 1
    projectFn := fun _ _ _ => (3, 2)
    clusterFn := fun _ _ _ => [0, -1]
    meanFn := fun _ _ => 0
    choiceFn := fun pop n => List.replicate n (pop.headD 0)
    clientFn := fun _ => "Cats, Dogs" }

/-- A concrete classifier state as produced by a completed fit over two
texts with labels [0, -1]. -/
def stFitted : CCState Nat Nat Nat Nat Nat :=
  { batch_size := some 1
    texts := some ["aaa", "bbb"]
    projection_algorithm := "umap"
    projection_args := []
    clustering_algorithm := "dbscan"
    clustering_args := []
    summary_create := false
    topic_mode := "multiple_topics"
    summary_n_examples := 2
    summary_chunk_size := 5
    summary_template := DEFAULT_TEMPLATE
    summary_instruction := DEFAULT_INSTRUCTION
    embeddings := some 7
    faiss_index := some 1
    cluster_labels := some [0, -1]
    projections := some 3
    mapper := some 2
    id2cluster := some (mkId2cluster [0, -1])
    label2docs := some (fun l => mkLabel2docs [0, -1] l)
    cluster_centers := some (mkClusterCenters (fun _ => 0) [0, -1])
    cluster_summaries := some [((-1 : Int), "None"), ((0 : Int), "Cats")] }

/-!  C10: constructor validation. -/

/-- C10: ClusterClassifier.__init__ raises ValueError exactly when the
projection algorithm is outside ['pca', 'tsvd', 'umap'] or the clustering
algorithm is outside ['dbscan', 'hdbscan', 'optics', 'kmeans']; any pair of
names drawn from those lists passes this validation. -/
theorem init_validation (E P M I C : Type) (bs : Option Int)
    (proj : String) (pargs : List (String × String)) (clust : String)
    (cargs : List (String × String)) (sc : Bool) (tm : String) (ne cs : Nat)
    (tpl ins : Option String) :
    (ClusterClassifier.init E P M I C bs proj pargs clust cargs sc tm ne cs
        tpl ins = .error .valueError ↔
      (proj ∉ ["pca", "tsvd", "umap"] ∨
       clust ∉ ["dbscan", "hdbscan", "optics", "kmeans"])) ∧
    ((∃ st, ClusterClassifier.init E P M I C bs proj pargs clust cargs sc tm
        ne cs tpl ins = .ok st) ↔
      (proj ∈ ["pca", "tsvd", "umap"] ∧
       clust ∈ ["dbscan", "hdbscan", "optics", "kmeans"])) := by
  unfold ClusterClassifier.init
  by_cases hp : proj ∈ ["pca", "tsvd", "umap"] <;>
    by_cases hc : clust ∈ ["dbscan", "hdbscan", "optics", "kmeans"] <;>
    simp [hp, hc]

/-!  C9: fit with the batch_size argument omitted. -/

/-- C9: a call to fit that leaves batch_size at its default None raises
TypeError at the comparison batch_size > 1 (line 130), before the embedding
stage: the stored embeddings and projections are untouched and the external
embedder and projector are never consulted, so a re-fit relying on the
stored batch size always fails. -/
theorem fit_none_batch_size_type_error {E P M I C : Type}
    (ext : ExtFns E P M I C) (st : CCState E P M I C)
    (texts : Option (List String)) (pa : Option String)
    (pr : Option (List (String × String))) (ca : Option String)
    (cr : Option (List (String × String))) :
    (fit ext st texts none pa pr ca cr).2 = .error .typeError ∧
    (fit ext st texts none pa pr ca cr).1.embeddings = st.embeddings ∧
    (fit ext st texts none pa pr ca cr).1.projections = st.projections ∧
    ∀ (g : Option (List String) → E)
      (h : E → String → List (String × String) → P × M),
      fit { ext with embedFn := g, projectFn := h } st texts none pa pr ca cr
        = fit ext st texts none pa pr ca cr := by
  unfold fit
  simp [pyGtOne]

/-!  C8: fit with batch_size greater than 1. -/

/-- C8: every call to fit with batch_size > 1 raises TypeError in the
preprocessing step: batch_and_join lacks a self parameter, so the bound
call at line 131 passes the instance as texts and the text list as n and
len(instance) raises. The failure happens before any embedding is
computed: the embeddings attribute is never set to a fresh embedding (it
holds None when the batch size changed, the old value otherwise) and the
external embedder and projector are never consulted. -/
theorem fit_batch_gt_one_type_error {E P M I C : Type}
    (ext : ExtFns E P M I C) (st : CCState E P M I C)
    (texts : Option (List String)) (b : Int) (pa : Option String)
    (pr : Option (List (String × String))) (ca : Option String)
    (cr : Option (List (String × String))) (hb : 1 < b) :
    (fit ext st texts (some b) pa pr ca cr).2 = .error .typeError ∧
    (fit ext st texts (some b) pa pr ca cr).1.embeddings =
      (if some b = st.batch_size then st.embeddings else none) ∧
    (fit ext st texts (some b) pa pr ca cr).1.projections =
      (if some b = st.batch_size then st.projections else none) ∧
    ∀ (g : Option (List String) → E)
      (h : E → String → List (String × String) → P × M),
      fit { ext with embedFn := g, projectFn := h } st texts (some b) pa pr
          ca cr
        = fit ext st texts (some b) pa pr ca cr := by
  unfold fit
  by_cases hsame : some b = st.batch_size <;>
    simp [pyGtOne, hb, hsame, batchAndJoinCall]

/-- Witness for C8 at a concrete fitted state and batch_size 2. -/
theorem fit_batch_gt_one_type_error_witness :
    (fit extNat stFitted (some ["aaa", "bbb"]) (some 2) none none none
        none).2 = .error .typeError :=
  (fit_batch_gt_one_type_error extNat stFitted (some ["aaa", "bbb"]) 2 none
    none none none (by decide)).1

/-!  C1: caching and invalidation of embeddings and projections in fit. -/

/-- Auxiliary: with cached embeddings the embedding stage of fitRest reuses
them, and with cached projections the projection stage reuses them; neither
the embedder nor the projector influence the outcome. -/
theorem fitRest_cached {E P M I C : Type} (ext : ExtFns E P M I C)
    (st : CCState E P M I C) (texts : Option (List String)) (e : E) (p : P)
    (he : st.embeddings = some e) (hp : st.projections = some p) :
    (fitRest ext st texts).1.embeddings = some e ∧
    (fitRest ext st texts).1.projections = some p ∧
    ∀ (g : Option (List String) → E)
      (h : E → String → List (String × String) → P × M),
      fitRest { ext with embedFn := g, projectFn := h } st texts
        = fitRest ext st texts := by
  unfold fitRest store_cluster_info
  rw [he, hp]
  refine ⟨?_, ?_, fun g h => rfl⟩ <;> dsimp only <;> split <;>
    first
      | (split <;> rfl)
      | rfl

/-- Auxiliary: with no cached embeddings and no cached projections fitRest
recomputes both from the external collaborators. -/
theorem fitRest_fresh {E P M I C : Type} (ext : ExtFns E P M I C)
    (st : CCState E P M I C) (texts : Option (List String))
    (he : st.embeddings = none) (hp : st.projections = none) :
    (fitRest ext st texts).1.embeddings = some (ext.embedFn texts) ∧
    (fitRest ext st texts).1.projections =
      some ((ext.projectFn (ext.embedFn texts) st.projection_algorithm
        st.projection_args).1) := by
  unfold fitRest store_cluster_info
  rw [he, hp]
  refine ⟨?_, ?_⟩ <;> dsimp only <;> split <;>
    first
      | (split <;> rfl)
      | rfl

/-- C1 (amended): re-fitting with a batch_size equal to the stored one
leaves the stored embeddings and projections unchanged and never consults
the external embedder or projector; a batch_size different from the stored
one discards both, and both are then recomputed during that fit exactly
when the new batch_size is at most 1 — for a larger batch_size the
preprocessing step raises TypeError first, leaving both discarded and
recomputing neither. -/
theorem fit_batch_size_caching {E P M I C : Type} (ext : ExtFns E P M I C)
    (st : CCState E P M I C) (texts : Option (List String))
    (pa : Option String) (pr : Option (List (String × String)))
    (ca : Option String) (cr : Option (List (String × String)))
    (e : E) (p : P)
    (he : st.embeddings = some e) (hp : st.projections = some p) :
    ((fit ext st texts st.batch_size pa pr ca cr).1.embeddings = some e ∧
     (fit ext st texts st.batch_size pa pr ca cr).1.projections = some p ∧
     ∀ (g : Option (List String) → E)
       (h : E → String → List (String × String) → P × M),
       fit { ext with embedFn := g, projectFn := h } st texts st.batch_size
           pa pr ca cr
         = fit ext st texts st.batch_size pa pr ca cr) ∧
    (∀ b : Int, some b ≠ st.batch_size →
      ((b ≤ 1 →
        (fit ext st texts (some b) pa pr ca cr).1.embeddings =
          some (ext.embedFn texts) ∧
        (fit ext st texts (some b) pa pr ca cr).1.projections =
          some ((ext.projectFn (ext.embedFn texts)
            (pyOrStr pa st.projection_algorithm)
            (pyOrArgs pr st.projection_args)).1)) ∧
       (1 < b →
        (fit ext st texts (some b) pa pr ca cr).1.embeddings = none ∧
        (fit ext st texts (some b) pa pr ca cr).1.projections = none ∧
        (fit ext st texts (some b) pa pr ca cr).2 = .error .typeError))) := by
  constructor
  · rcases hbs : st.batch_size with _ | b
    · unfold fit
      rw [hbs]
      simp [pyGtOne, he, hp]
    · by_cases h1 : (1 : Int) < b
      · unfold fit
        rw [hbs]
        simp [pyGtOne, h1, batchAndJoinCall, he, hp]
      · unfold fit
        rw [hbs]
        have hcf : ¬(((some b : Option Int)).isSome ∧
            (some b : Option Int) ≠ some b) := by simp
        rw [if_neg hcf]
        simp only [pyGtOne, decide_eq_false h1]
        exact ⟨(fitRest_cached (M := M) ext
            (fitSt2 st texts (some b) pa pr ca cr) texts e p he hp).1,
               (fitRest_cached (M := M) ext
            (fitSt2 st texts (some b) pa pr ca cr) texts e p he hp).2.1,
               fun g h => (fitRest_cached ext
            (fitSt2 st texts (some b) pa pr ca cr) texts e p he hp).2.2 g h⟩
  · intro b hne
    constructor
    · intro hle
      have h1 : ¬((1 : Int) < b) := by omega
      unfold fit
      have hct : (((some b : Option Int)).isSome ∧
          (some b : Option Int) ≠ st.batch_size) := by
        simpa using hne
      rw [if_pos hct]
      simp only [pyGtOne, decide_eq_false h1]
      exact ⟨(fitRest_fresh (M := M) ext
            { fitSt2 st texts (some b) pa pr ca cr with
              embeddings := none, projections := none } texts rfl rfl).1,
             (fitRest_fresh (M := M) ext
            { fitSt2 st texts (some b) pa pr ca cr with
              embeddings := none, projections := none } texts rfl rfl).2⟩
    · intro h1
      unfold fit
      have hct : (((some b : Option Int)).isSome ∧
          (some b : Option Int) ≠ st.batch_size) := by
        simpa using hne
      rw [if_pos hct]
      simp [pyGtOne, h1, batchAndJoinCall]

/-- Counterexample to C1 as stated: on a fitted classifier (stored
batch_size 1, embeddings and projections present) a fit with batch_size 2
does discard both stored artifacts, but neither is recomputed during that
fit — the call dies with TypeError in preprocessing and both attributes
are left as None. -/
theorem fit_changed_batch_not_recomputed_counterexample :
    stFitted.embeddings = some 7 ∧ stFitted.projections = some 3 ∧
    stFitted.batch_size = some 1 ∧
    (fit extNat stFitted (some ["aaa", "bbb"]) (some 2) none none none
        none).1.embeddings = none ∧
    (fit extNat stFitted (some ["aaa", "bbb"]) (some 2) none none none
        none).1.projections = none ∧
    (fit extNat stFitted (some ["aaa", "bbb"]) (some 2) none none none
        none).2 = .error .typeError :=
  ⟨rfl, rfl, rfl, rfl, rfl, rfl⟩

/-- Witness for the amended C1 at the concrete fitted state: re-fitting
with the stored batch size 1 reuses the stored embeddings. -/
theorem fit_batch_size_caching_witness :
    (fit extNat stFitted (some ["aaa", "bbb"]) stFitted.batch_size none none
        none none).1.embeddings = some 7 :=
  (fit_batch_size_caching extNat stFitted (some ["aaa", "bbb"]) none none
    none none 7 3 rfl rfl).1.1

/-!  C2: majority vote in infer. -/

/-- The keys of a Counter are exactly the elements of the underlying
list. -/
theorem mem_counterKeys {x : Int} : ∀ l : List Int, x ∈ counterKeys l ↔ x ∈ l
  | [] => by simp [counterKeys]
  | y :: ys => by
    by_cases hxy : x = y <;>
      simp [counterKeys, List.mem_filter, mem_counterKeys ys, hxy]

/-- The fold selecting the first key of maximal score returns one of the
candidates. -/
theorem argmaxFold_mem (f : Int → Nat) :
    ∀ (ks : List Int) (k : Int),
      ks.foldl (fun best x => if f best < f x then x else best) k ∈ k :: ks
  | [], k => by simp
  | a :: as, k => by
    have ih := argmaxFold_mem f as (if f k < f a then a else k)
    rcases List.mem_cons.mp ih with h | h
    · rw [List.foldl_cons]
      rcases ite_eq_or_eq (f k < f a) a k with he | he <;> rw [h, he] <;> simp
    · rw [List.foldl_cons]
      exact List.mem_cons.mpr (Or.inr (List.mem_cons.mpr (Or.inr h)))

/-- The fold selecting the first key of maximal score dominates every
candidate. -/
theorem argmaxFold_le (f : Int → Nat) :
    ∀ (ks : List Int) (k : Int), ∀ x ∈ k :: ks,
      f x ≤ f (ks.foldl (fun best x => if f best < f x then x else best) k)
  | [], k => by simp
  | a :: as, k => by
    intro x hx
    rw [List.foldl_cons]
    have hk : f k ≤ f (if f k < f a then a else k) := by
      by_cases h : f k < f a <;> simp [h] <;> omega
    have ha : f a ≤ f (if f k < f a then a else k) := by
      by_cases h : f k < f a <;> simp [h] <;> omega
    have ihtop := argmaxFold_le f as (if f k < f a then a else k)
      (if f k < f a then a else k) (List.mem_cons_self _ _)
    rcases List.mem_cons.mp hx with rfl | hx
    · exact le_trans hk ihtop
    · rcases List.mem_cons.mp hx with rfl | hx
      · exact le_trans ha ihtop
      · exact argmaxFold_le f as (if f k < f a then a else k) x
          (List.mem_cons.mpr (Or.inr hx))

/-- Counter(l).most_common(1)[0][0] on a non-empty list returns an element
of the list whose count dominates the count of every element. -/
theorem mostCommon_spec (l : List Int) (hne : l ≠ []) :
    ∃ m, mostCommon l = some m ∧ m ∈ l ∧ ∀ x ∈ l, l.count x ≤ l.count m := by
  rcases l with _ | ⟨y, ys⟩
  · exact absurd rfl hne
  · refine ⟨((counterKeys ys).filter (fun z => z ≠ y)).foldl
      (fun best x => if (y :: ys).count best < (y :: ys).count x then x
        else best) y, rfl, ?_, ?_⟩
    · have h := argmaxFold_mem (fun x => (y :: ys).count x)
        ((counterKeys ys).filter (fun z => z ≠ y)) y
      have : counterKeys (y :: ys) =
          y :: (counterKeys ys).filter (fun z => z ≠ y) := rfl
      exact (mem_counterKeys (y :: ys)).mp (this ▸ h)
    · intro x hx
      have hxk : x ∈ counterKeys (y :: ys) := (mem_counterKeys (y :: ys)).mpr hx
      exact argmaxFold_le (fun x => (y :: ys).count x)
        ((counterKeys ys).filter (fun z => z ≠ y)) y x hxk

/-- C2: on a classifier with a built index and stored labels, infer returns
one label per input text (the embedder yields one embedding per text and
faiss one neighbour row per embedding), and each returned label is a label
of maximal frequency among the cluster labels of the top_k neighbours the
index returns for that text. -/
theorem infer_majority_vote {E : Type} (embedFn : List String → List E)
    (searchFn : E → Nat → List Nat) (labels : List Int)
    (texts : List String) (k : Nat)
    (htexts : texts ≠ []) (hk : 1 ≤ k)
    (hlen : (embedFn texts).length = texts.length)
    (hsearch : ∀ e, (searchFn e k).length = k) :
    (infer embedFn searchFn labels texts k).1.length = texts.length ∧
    ∀ (i : Nat) (e : E), (embedFn texts).get? i = some e →
      ∃ m, (infer embedFn searchFn labels texts k).1.get? i = some m ∧
        m ∈ (searchFn e k).map (fun d => labels.getD d 0) ∧
        ∀ x ∈ (searchFn e k).map (fun d => labels.getD d 0),
          ((searchFn e k).map (fun d => labels.getD d 0)).count x ≤
            ((searchFn e k).map (fun d => labels.getD d 0)).count m := by
  constructor
  · simp [infer, hlen]
  · intro i e he
    have hnl : (searchFn e k).map (fun d => labels.getD d 0) ≠ [] := by
      have : ((searchFn e k).map (fun d => labels.getD d 0)).length = k := by
        simp [hsearch e]
      intro hcon
      rw [hcon] at this
      simp at this
      omega
    obtain ⟨m, hm, hmem, hmax⟩ :=
      mostCommon_spec ((searchFn e k).map (fun d => labels.getD d 0)) hnl
    refine ⟨m, ?_, hmem, hmax⟩
    show (List.map _ (embedFn texts)).get? i = some m
    rw [List.get?_map, he, Option.map_some']
    rw [hm]
    rfl

/-- Witness for C2 on three stored documents with labels [0, 0, -1] and
top_k 3. -/
theorem infer_majority_vote_witness :
    (infer (fun ts => ts.map (fun _ => (0 : Nat)))
      (fun _ j => List.range j) [0, 0, -1] ["x", "y"] 3).1.length = 2 :=
  (infer_majority_vote (fun ts => ts.map (fun _ => (0 : Nat)))
    (fun _ j => List.range j) [0, 0, -1] ["x", "y"] 3 (by decide)
    (by decide) (by simp) (fun e => by simp)).1

/-!  C3: the cluster bookkeeping is total and a partition. -/

/-- Looking up index k + i in an enumeration starting at k yields the i-th
element. -/
theorem lookup_pyEnumFrom {α : Type} :
    ∀ (l : List α) (k i : Nat), List.lookup (k + i) (pyEnumFrom k l) = l.get? i
  | [], k, i => by simp [pyEnumFrom]
  | x :: xs, k, i => by
    cases i with
    | zero => simp [pyEnumFrom, List.lookup]
    | succ j =>
      have hb : (k + (j + 1) == k) = false := beq_eq_false_iff_ne.mpr (by omega)
      have heq : k + (j + 1) = (k + 1) + j := by omega
      simp only [pyEnumFrom, List.lookup, hb]
      rw [heq, lookup_pyEnumFrom xs (k + 1) j]
      rfl

/-- Membership in an enumeration starting at k. -/
theorem mem_pyEnumFrom {α : Type} :
    ∀ (l : List α) (k : Nat) (p : Nat × α),
      p ∈ pyEnumFrom k l ↔ (k ≤ p.1 ∧ l.get? (p.1 - k) = some p.2)
  | [], k, p => by simp [pyEnumFrom]
  | x :: xs, k, p => by
    rw [pyEnumFrom, List.mem_cons, mem_pyEnumFrom xs (k + 1) p]
    constructor
    · rintro (rfl | ⟨hk, hget⟩)
      · simp
      · refine ⟨by omega, ?_⟩
        have : p.1 - k = (p.1 - (k + 1)) + 1 := by omega
        rw [this]
        exact hget
    · rintro ⟨hk, hget⟩
      rcases Nat.eq_or_lt_of_le hk with heq | hlt
      · left
        have h0 : p.1 - k = 0 := by omega
        rw [h0] at hget
        simp only [List.get?] at hget
        obtain ⟨p1, p2⟩ := p
        simp only at heq h0 hget ⊢
        rw [← heq]
        cases hget
        rfl
      · right
        refine ⟨by omega, ?_⟩
        have : p.1 - (k + 1) = (p.1 - k) - 1 := by omega
        rw [this]
        rcases hn : p.1 - k with _ | j
        · omega
        · rw [hn] at hget
          simpa using hget
/-- label2docs membership: index i carries label l exactly when the i-th
stored label is l. -/
theorem mem_mkLabel2docs (labels : List Int) (i : Nat) (l : Int) :
    i ∈ mkLabel2docs labels l ↔ labels.get? i = some l := by
  unfold mkLabel2docs
  rw [List.mem_map]
  constructor
  · rintro ⟨p, hp, rfl⟩
    have hf := List.mem_filter.mp hp
    have hmem := (mem_pyEnumFrom labels 0 p).mp hf.1
    have hbeq : p.2 = l := by simpa using hf.2
    rw [← hbeq]
    simpa using hmem.2
  · intro hget
    refine ⟨(i, l), List.mem_filter.mpr ⟨?_, by simp⟩, rfl⟩
    rw [mem_pyEnumFrom labels 0 (i, l)]
    simpa using hget

/-- C3: store_cluster_info assigns each document exactly one label:
id2cluster maps every index i to the i-th stored label (and is defined on
exactly the indices 0..n-1), the label2docs lists partition the indices
(index i belongs to the list of label l exactly when label i is l, so each
index lies in exactly one list), the summarization loop never visits the
reserved noise label -1, and the summaries dict maps -1 to the fixed
string "None". -/
theorem store_cluster_info_partition (labels : List Int) :
    (∀ i : Nat, List.lookup i (mkId2cluster labels) = labels.get? i) ∧
    (∀ (i : Nat) (l : Int), i ∈ mkLabel2docs labels l ↔ labels.get? i = some l) ∧
    (∀ i : Nat, i < labels.length → ∃! l : Int, i ∈ mkLabel2docs labels l) ∧
    (-1 : Int) ∉ summarizedLabels labels ∧
    List.lookup (-1 : Int) initialSummaries = some "None" := by
  refine ⟨?_, mem_mkLabel2docs labels, ?_, ?_, rfl⟩
  · intro i
    have := lookup_pyEnumFrom labels 0 i
    simpa [mkId2cluster] using this
  · intro i hi
    have hl : labels.get? i = some (labels.get ⟨i, hi⟩) := List.get?_eq_get hi
    refine ⟨labels.get ⟨i, hi⟩, (mem_mkLabel2docs labels i _).mpr hl, ?_⟩
    intro y hy
    have h1 := (mem_mkLabel2docs labels i y).mp hy
    rw [hl] at h1
    exact (Option.some_inj.mp h1).symm
  · intro hmem
    simp only [summarizedLabels, List.mem_map, List.mem_range] at hmem
    obtain ⟨j, _, hj⟩ := hmem
    rw [Int.ofNat_eq_natCast] at hj
    omega

/-- Witness for C3 on the labeling [0, -1, 0]: document 1 lies in exactly
one label list. -/
theorem store_cluster_info_partition_witness :
    ∃! l : Int, 1 ∈ mkLabel2docs [0, -1, 0] l :=
  (store_cluster_info_partition [0, -1, 0]).2.2.1 1 (by decide)

/-!  C7: post-processing of the service response. -/

/-- The first fragment of a single-character split is the prefix before the
first occurrence of the character. -/
theorem headD_pySplitChar (c : Char) :
    ∀ s : List Char,
      (pySplitChar c s).headD [] = s.takeWhile (fun x => x ≠ c)
  | [] => rfl
  | x :: rest => by
    by_cases hxc : x = c
    · subst hxc
      simp [pySplitChar, List.takeWhile]
    · have ih := headD_pySplitChar c rest
      simp only [pySplitChar, hxc, if_false]
      rcases hps : pySplitChar c rest with _ | ⟨h, t⟩ <;>
        rw [hps] at ih <;>
        simp only [List.headD] at ih <;>
        simp only [decide_not] at ih <;>
        simp [List.takeWhile, hxc, decide_not, ← ih]

/-- C7: for topic_mode "multiple_topics", _postprocess_response computes
exactly the short topic string the claim describes (first line, truncated
at the first period and first opening parenthesis, stripped, empty
comma-separated segments removed); any mode other than "multiple_topics"
and "single_topic" raises ValueError. -/
theorem postprocess_response_spec (r : List Char) (mode : String) :
    postprocessResponseL "multiple_topics" r = .ok (multipleTopicsSpecL r) ∧
    (mode ≠ "multiple_topics" → mode ≠ "single_topic" →
      postprocessResponseL mode r = .error .valueError) := by
  constructor
  · simp only [postprocessResponseL, multipleTopicsStrL, multipleTopicsSpecL]
    rw [headD_pySplitChar, headD_pySplitChar, headD_pySplitChar]
    simp
  · intro h1 h2
    simp only [postprocessResponseL, if_neg h1, if_neg h2]

/-- Witness for C7: an unsupported topic mode raises ValueError. -/
theorem postprocess_response_spec_witness :
    postprocessResponseL "other_mode" "Cats, Dogs".data = .error .valueError :=
  (postprocess_response_spec "Cats, Dogs".data "other_mode").2 (by decide)
    (by decide)

/-!  C5: prompt size is bounded. -/

/-- Enumeration preserves length. -/
theorem length_pyEnumFrom {α : Type} :
    ∀ (l : List α) (k : Nat), (pyEnumFrom k l).length = l.length
  | [], _ => rfl
  | _ :: xs, k => by simp [pyEnumFrom, length_pyEnumFrom xs (k + 1)]

/-- Indexing into an enumeration. -/
theorem get?_pyEnumFrom {α : Type} :
    ∀ (l : List α) (k i : Nat),
      (pyEnumFrom k l).get? i = (l.get? i).map (fun a => (k + i, a))
  | [], _, _ => by simp [pyEnumFrom]
  | x :: xs, k, 0 => by simp [pyEnumFrom]
  | x :: xs, k, i + 1 => by
    have ih := get?_pyEnumFrom xs (k + 1) i
    simp only [pyEnumFrom, List.get?]
    rw [ih]
    have : k + 1 + i = k + (i + 1) := by omega
    rw [this]

/-- A Python slice s[:n] has at most n characters. -/
theorem pySlice_length_le (s : String) (n : Nat) : (pySlice s n).length ≤ n := by
  have : (pySlice s n).length = (s.data.take n).length := rfl
  rw [this, List.length_take]
  exact min_le_left n s.data.length

/-- C5: for every cluster the summarization loop processes, the prompt is
built from exactly summary_n_examples example blocks, each containing one
sampled document of the cluster truncated to at most summary_chunk_size
characters, and the request sent to the service is the template applied to
the blocks joined by blank lines — so the prompt size is bounded
independently of cluster size. The two hypotheses on choiceFn are
np.random.choice's contract: it returns exactly the requested number of
draws, each drawn from the (non-empty) population. -/
theorem summarize_prompt_bounded (choiceFn : List Nat → Nat → List Nat)
    (template instruction : String) (n_examples chunk : Nat)
    (texts : List String) (label2docs : Int → List Nat) (label : Int)
    (ids : List Nat)
    (hlen : ∀ pop n, (choiceFn pop n).length = n)
    (hmem : ∀ pop n x, pop ≠ [] → x ∈ choiceFn pop n → x ∈ pop)
    (hch : npChoice choiceFn (label2docs label) n_examples = .ok ids) :
    (clusterExampleBlocks chunk texts ids).length = n_examples ∧
    (∀ (i : Nat) (id : Nat), ids.get? i = some id →
      id ∈ label2docs label ∧
      (clusterExampleBlocks chunk texts ids).get? i =
        some (exampleBlock chunk texts i id) ∧
      (pySlice (texts.getD id "") chunk).length ≤ chunk) ∧
    clusterRequest template instruction chunk texts ids =
      pyFormat template
        (String.intercalate "\n\n" (clusterExampleBlocks chunk texts ids))
        instruction := by
  have hpop : label2docs label ≠ [] := by
    intro hnil
    rw [npChoice, if_pos hnil] at hch
    cases hch
  have hids : ids = choiceFn (label2docs label) n_examples := by
    rw [npChoice, if_neg hpop] at hch
    cases hch
    rfl
  refine ⟨?_, ?_, rfl⟩
  · rw [clusterExampleBlocks, List.length_map, length_pyEnumFrom, hids,
      hlen]
  · intro i id hget
    refine ⟨?_, ?_, pySlice_length_le _ _⟩
    · exact hmem (label2docs label) n_examples id hpop
        (hids ▸ List.get?_mem hget)
    · rw [clusterExampleBlocks, List.get?_map, get?_pyEnumFrom, hget]
      simp

/-- Witness for C5 with two sampled examples from a one-document cluster. -/
theorem summarize_prompt_bounded_witness :
    (clusterExampleBlocks 5 ["aaaaaaaa", "bbb"] [0, 0]).length = 2 :=
  (summarize_prompt_bounded (fun pop n => List.replicate n (pop.headD 0))
    DEFAULT_TEMPLATE DEFAULT_INSTRUCTION 2 5 ["aaaaaaaa", "bbb"]
    (fun l => mkLabel2docs [0, 1] l) 0 [0, 0]
    (fun pop n => by simp)
    (fun pop n x hne hx => by
      have hx0 := List.eq_of_mem_replicate hx
      rcases pop with _ | ⟨a, t⟩
      · exact absurd rfl hne
      · rw [hx0]
        simp)
    rfl).1

/-!  C4: the noise label is excluded from summarization. -/

/-- A loop whose every iteration succeeds collects all results. -/
theorem mapExcept_ok {α β : Type} (f : α → Except PyErr β) (g : α → β) :
    ∀ l : List α, (∀ a ∈ l, f a = .ok (g a)) →
      mapExcept f l = .ok (l.map g)
  | [], _ => rfl
  | a :: l, h => by
    have ha := h a (List.mem_cons_self a l)
    have hl := mapExcept_ok f g l (fun b hb => h b (List.mem_cons_of_mem a hb))
    simp only [mapExcept]
    rw [ha, hl]
    rfl

/-- Association-list lookup over the pairs produced for the labels
s, s+1, ..., s+n-1. -/
theorem lookup_ofNat_range' (v : Nat → String) :
    ∀ (n s j : Nat), s ≤ j → j < s + n →
      List.lookup (Int.ofNat j)
        ((List.range' s n).map (fun k => (Int.ofNat k, v k))) = some (v j)
  | 0, s, j, h1, h2 => by omega
  | n + 1, s, j, h1, h2 => by
    rcases Nat.eq_or_lt_of_le h1 with rfl | hlt
    · simp [List.range', List.lookup]
    · have hne : (Int.ofNat j == Int.ofNat s) = false := by
        refine beq_eq_false_iff_ne.mpr ?_
        intro hcon
        rw [Int.ofNat_eq_natCast, Int.ofNat_eq_natCast] at hcon
        omega
      simp only [List.range', List.map_cons, List.lookup, hne]
      exact lookup_ofNat_range' v n (s + 1) j (by omega) (by omega)

/-- A label that occurs among the stored labels has a non-empty document
list. -/
theorem mkLabel2docs_ne_nil {labels : List Int} {l : Int}
    (h : l ∈ labels) : mkLabel2docs labels l ≠ [] := by
  obtain ⟨n, hn⟩ := List.get?_of_mem h
  have := (mem_mkLabel2docs labels n l).mpr hn
  intro hnil
  rw [hnil] at this
  cases this

/-- C4 (amended): summarize always maps the noise label -1 to the fixed
summary "None" with no service call (the entry is the constant inserted
before the loop, independent of the client), and the loop queries the
service exactly for the labels 0..len(set(labels))-2; when the label set
is exactly {-1, 0, ..., k-1} — noise present and the clusterer's
contiguous numbering, as DBSCAN produces — every non-noise label present
receives a summary post-processed from a service response. -/
theorem summarize_noise_excluded (choiceFn : List Nat → Nat → List Nat)
    (clientFn : String → String) (n_examples chunk : Nat)
    (template instruction : String) (texts : List String)
    (labels : List Int)
    (hnoise : (-1 : Int) ∈ labels)
    (hcover : ∀ l ∈ labels, l = -1 ∨
      (0 ≤ l ∧ l.toNat < uniqueLabelCount labels - 1))
    (hfill : ∀ j : Nat, j < uniqueLabelCount labels - 1 →
      Int.ofNat j ∈ labels) :
    ∃ res,
      summarize choiceFn clientFn "multiple_topics" n_examples chunk template
        instruction texts labels (fun l => mkLabel2docs labels l) = .ok res ∧
      List.lookup (-1 : Int) res = some "None" ∧
      (-1 : Int) ∉ summarizedLabels labels ∧
      ∀ l ∈ labels, l ≠ -1 →
        List.lookup l res =
          some (String.mk (multipleTopicsStrL (clientFn (clusterRequest
            template instruction chunk texts (choiceFn (mkLabel2docs labels l)
              n_examples))).data)) := by
  have hstep : ∀ l ∈ summarizedLabels labels,
      summarizeCluster choiceFn clientFn "multiple_topics" n_examples chunk
        template instruction texts (fun z => mkLabel2docs labels z) l =
      .ok (l, String.mk (multipleTopicsStrL (clientFn (clusterRequest
        template instruction chunk texts (choiceFn (mkLabel2docs labels l)
          n_examples))).data)) := by
    intro l hl
    simp only [summarizedLabels, List.mem_map, List.mem_range] at hl
    obtain ⟨j, hj, rfl⟩ := hl
    have hinl : Int.ofNat j ∈ labels := hfill j hj
    have hpop := mkLabel2docs_ne_nil hinl
    simp only [summarizeCluster, npChoice, postprocessResponse,
      postprocessResponseL, Except.map]
    rw [if_neg hpop]
    rfl
  have hmap := mapExcept_ok _ _ _ hstep
  refine ⟨initialSummaries ++ (summarizedLabels labels).map
      (fun a => (a, String.mk (multipleTopicsStrL (clientFn (clusterRequest
        template instruction chunk texts (choiceFn (mkLabel2docs labels a)
          n_examples))).data))), ?_, ?_, ?_, ?_⟩
  · simp only [summarize]
    rw [hmap]
    rfl
  · rfl
  · intro hmem
    simp only [summarizedLabels, List.mem_map, List.mem_range] at hmem
    obtain ⟨j, _, hj⟩ := hmem
    rw [Int.ofNat_eq_natCast] at hj
    omega
  · intro l hl hlne
    rcases hcover l hl with rfl | ⟨h0, hlt⟩
    · exact absurd rfl hlne
    · have hlrw : l = Int.ofNat l.toNat := by
        rw [Int.ofNat_eq_natCast, Int.toNat_of_nonneg h0]
      have hne1 : (l == (-1 : Int)) = false := beq_eq_false_iff_ne.mpr hlne
      simp only [initialSummaries, List.cons_append, List.nil_append,
        List.lookup, hne1]
      rw [summarizedLabels, List.map_map, List.range_eq_range']
      have hlook := lookup_ofNat_range'
        (fun k => String.mk (multipleTopicsStrL (clientFn (clusterRequest
          template instruction chunk texts (choiceFn
            (mkLabel2docs labels (Int.ofNat k)) n_examples))).data))
        (uniqueLabelCount labels - 1) 0 l.toNat (by omega) (by omega)
      rw [hlrw]
      exact hlook

/-- Counterexample to C4 as stated: for the labeling [0, 1] (two non-noise
clusters, no noise point), len(set(labels)) - 1 = 1, so the loop only
visits label 0; label 1 is present and different from -1 yet receives no
summary at all. -/
theorem summarize_skips_label_counterexample :
    (1 : Int) ∈ ([0, 1] : List Int) ∧ (1 : Int) ≠ -1 ∧
    summarize (fun pop n => List.replicate n (pop.headD 0))
      (fun _ => "Cats, Dogs") "multiple_topics" 2 5 DEFAULT_TEMPLATE
      DEFAULT_INSTRUCTION ["aaa", "bbb"] [0, 1]
      (fun l => mkLabel2docs [0, 1] l) =
      .ok [((-1 : Int), "None"), ((0 : Int), "Cats, Dogs")] ∧
    List.lookup (1 : Int)
      [((-1 : Int), "None"), ((0 : Int), "Cats, Dogs")] = none := by
  refine ⟨by decide, by decide, ?_, by decide⟩
  rfl

/-- Witness for the amended C4 on the labeling [-1, 0]: the contiguity
hypotheses hold and both labels are covered. -/
theorem summarize_noise_excluded_witness :
    ∃ res, summarize (fun pop n => List.replicate n (pop.headD 0))
      (fun _ => "Cats, Dogs") "multiple_topics" 2 5 DEFAULT_TEMPLATE
      DEFAULT_INSTRUCTION ["aaa", "bbb"] [-1, 0]
      (fun l => mkLabel2docs [-1, 0] l) = .ok res ∧
      List.lookup (-1 : Int) res = some "None" ∧
      (-1 : Int) ∉ summarizedLabels [-1, 0] ∧
      ∀ l ∈ ([-1, 0] : List Int), l ≠ -1 →
        List.lookup l res =
          some (String.mk (multipleTopicsStrL ((fun _ => "Cats, Dogs")
            (clusterRequest DEFAULT_TEMPLATE DEFAULT_INSTRUCTION 5
              ["aaa", "bbb"] ((fun pop n => List.replicate n (pop.headD 0))
                (mkLabel2docs [-1, 0] l) 2)) : String).data)) :=
  summarize_noise_excluded (fun pop n => List.replicate n (pop.headD 0))
    (fun _ => "Cats, Dogs") 2 5 DEFAULT_TEMPLATE DEFAULT_INSTRUCTION
    ["aaa", "bbb"] [-1, 0] (by decide) (by decide) (by decide)

/-!  C6: save followed by load restores the persisted state. -/

/-- Reading a decimal digit character back gives the digit. -/
theorem charVal_digitChar (d : Nat) (hd : d < 10) :
    charVal (digitChar d) = d := by
  interval_cases d <;> decide

/-- Decimal digit characters are never the minus sign. -/
theorem digitChar_ne_minus (d : Nat) (hd : d < 10) : digitChar d ≠ '-' := by
  interval_cases d <;> decide

/-- int(str(n)) = n for natural numbers. -/
theorem charsNat_natChars (n : Nat) : charsNat (natChars n) = n := by
  by_cases h0 : n = 0
  · subst h0
    decide
  · rw [natChars, if_neg h0, charsNat, List.map_reverse,
      List.reverse_reverse, List.map_map]
    have hcongr : (Nat.digits 10 n).map (charVal ∘ digitChar) =
        (Nat.digits 10 n).map id := by
      apply List.map_congr_left
      intro d hd
      exact charVal_digitChar d (Nat.digits_lt_base (by norm_num) hd)
    rw [hcongr, List.map_id, Nat.ofDigits_digits]

/-- str(n) is never empty. -/
theorem natChars_ne_nil (n : Nat) : natChars n ≠ [] := by
  by_cases h0 : n = 0
  · subst h0
    decide
  · rw [natChars, if_neg h0]
    simp [Nat.digits_ne_nil_iff_ne_zero, h0]

/-- str(n) contains no minus sign. -/
theorem natChars_no_minus (n : Nat) : ∀ c ∈ natChars n, c ≠ '-' := by
  by_cases h0 : n = 0
  · subst h0
    intro c hc
    simp [natChars] at hc
    subst hc
    decide
  · intro c hc
    rw [natChars, if_neg h0, List.mem_reverse, List.mem_map] at hc
    obtain ⟨d, hd, rfl⟩ := hc
    exact digitChar_ne_minus d (Nat.digits_lt_base (by norm_num) hd)

/-- int(str(z)) = z: converting a summary key to its JSON string form and
back restores the key. -/
theorem intParse_intStr (z : Int) : intParse (intStr z) = z := by
  by_cases hz : z < 0
  · rw [intStr, if_pos hz]
    show intParseL ('-' :: natChars z.natAbs) = z
    rw [intParseL, if_pos rfl, charsNat_natChars]
    omega
  · rw [intStr, if_neg hz]
    show intParseL (natChars z.toNat) = z
    rcases hnc : natChars z.toNat with _ | ⟨c, rest⟩
    · exact absurd hnc (natChars_ne_nil _)
    · have hcne : c ≠ '-' :=
        natChars_no_minus z.toNat c (hnc ▸ List.mem_cons_self c rest)
      rw [intParseL, if_neg hcne, ← hnc, charsNat_natChars]
      omega

/-- The key stringification of save and the int(key) conversion of load are
mutually inverse on the summaries dict. -/
theorem summaries_key_roundtrip (l : List (Int × String)) :
    (l.map (fun p => (intStr p.1, p.2))).map (fun p => (intParse p.1, p.2))
      = l := by
  rw [List.map_map]
  conv_rhs => rw [← List.map_id l]
  apply List.map_congr_left
  intro p _
  show (intParse (intStr p.1), p.2) = p
  rw [intParse_intStr]

/-- C6: loading a folder produced by save restores embeddings, projections,
cluster_labels and texts verbatim, restores cluster_summaries (keys
converted back to ints) whenever summaries had been saved, and recomputes
id2cluster, label2docs and cluster_centers equal to their pre-save values
on every fitted state (one whose bookkeeping was built by
store_cluster_info from its stored labels and projections). -/
theorem save_load_roundtrip {E P M I C : Type} (meanFn : P → List Nat → C)
    (st st0 : CCState E P M I C) (labels : List Int) (p : P)
    (hl : st.cluster_labels = some labels)
    (hp : st.projections = some p)
    (hid : st.id2cluster = some (mkId2cluster labels))
    (hld : st.label2docs = some (fun l => mkLabel2docs labels l))
    (hcc : st.cluster_centers = some (mkClusterCenters (meanFn p) labels)) :
    (ClusterClassifier.load meanFn st0 (ClusterClassifier.save st)).embeddings
      = st.embeddings ∧
    (ClusterClassifier.load meanFn st0
      (ClusterClassifier.save st)).projections = st.projections ∧
    (ClusterClassifier.load meanFn st0
      (ClusterClassifier.save st)).cluster_labels = st.cluster_labels ∧
    (ClusterClassifier.load meanFn st0 (ClusterClassifier.save st)).texts
      = st.texts ∧
    (∀ s, st.cluster_summaries = some s →
      (ClusterClassifier.load meanFn st0
        (ClusterClassifier.save st)).cluster_summaries = some s) ∧
    (ClusterClassifier.load meanFn st0
      (ClusterClassifier.save st)).id2cluster = st.id2cluster ∧
    (ClusterClassifier.load meanFn st0
      (ClusterClassifier.save st)).label2docs = st.label2docs ∧
    (ClusterClassifier.load meanFn st0
      (ClusterClassifier.save st)).cluster_centers = st.cluster_centers := by
  unfold ClusterClassifier.load ClusterClassifier.save
  refine ⟨rfl, rfl, rfl, rfl, ?_, ?_, ?_, ?_⟩
  · intro s hs
    simp only [hs, Option.map_some]
    show some ((s.map (fun p => (intStr p.1, p.2))).map
      (fun p => (intParse p.1, p.2))) = some s
    rw [summaries_key_roundtrip]
  · simp [hid, hl]
  · simp [hld, hl]
  · simp [hcc, hl, hp]

/-- Witness for C6 at a concrete fitted state: the summaries survive the
key round-trip. -/
theorem save_load_roundtrip_witness :
    (ClusterClassifier.load (fun _ _ => (0 : Nat)) stFitted
      (ClusterClassifier.save stFitted)).cluster_summaries =
      some [((-1 : Int), "None"), ((0 : Int), "Cats")] :=
  (save_load_roundtrip (fun _ _ => (0 : Nat)) stFitted stFitted [0, -1] 3
    rfl rfl rfl rfl rfl).2.2.2.2.1 _ rfl
